import Mathlib

/-!
Verification of the churn-prediction MLOps repository
(`src/models/model1/preprocessing.py`, `src/models/model1/model.py`,
`src/models/model1/predict.py`, `src/api/app.py`,
`src/monitoring/drift_monitor.py`).

The Python code is shallowly embedded: pandas DataFrames become lists of
records (association lists from column name to value), floats become
rationals, exceptions become `Except`, and the file system becomes an
explicit store passed around as a value.
-/

deriving instance DecidableEq for Except

namespace Spec2Proof

/-- Value held in one cell of a record: a numeric cell (int64/float64 dtype
in pandas) or a string cell (object dtype). -/
inductive Value where
  | num (q : ℚ)
  | str (s : String)
deriving DecidableEq

/-- RawRecord models one row of a pandas DataFrame built from a dict, as in
`pd.DataFrame(customers_data)` in `src/api/app.py`: an association list from
column name to cell value. -/
abbrev RawRecord := List (String × Value)

/-- Lookup of a numeric cell by column name; `none` when the column is
absent from the record or holds a string. -/
def RawRecord.getNum (r : RawRecord) (c : String) : Option ℚ :=
  match r.find? (fun p => p.1 == c) with
  | some (_, Value.num q) => some q
  | _ => none

/-- Lookup of a string cell by column name; `none` when the column is
absent from the record or holds a number. -/
def RawRecord.getStr (r : RawRecord) (c : String) : Option String :=
  match r.find? (fun p => p.1 == c) with
  | some (_, Value.str s) => some s
  | _ => none

/-- Fitted per-column state of the sklearn StandardScaler: the stored
`mean_` and `scale_` attributes (scale is the standard deviation computed
at fit time, with zero replaced by one by sklearn). -/
structure FittedScaler where
  mean : ℚ
  scale : ℚ
deriving DecidableEq

/-- FittedState is the fitted state of the ColumnTransformer built in
`ChurnPreprocessor.fit` (preprocessing.py lines 38-49): the ordered numeric
features with their scaler state, and the ordered categorical features each
with its `categories_` vocabulary (the distinct values seen at fit, in
sorted order). The transformer is configured with
`OneHotEncoder` with drop=first, sparse_output=False and
handle_unknown=ignore, and with remainder=drop. -/
structure FittedState where
  numeric : List (String × FittedScaler)
  categorical : List (String × List String)
deriving DecidableEq

/-- Errors raised inside preprocessing/prediction: the explicit
`ValueError("Preprocessor must be fitted before transform")` and the error
sklearn raises when a fitted input column is missing from the frame. -/
inductive PreprocError where
  | notFitted
  | missingColumn (c : String)
deriving DecidableEq

/-- Effectful map over a list in the `Except` monad, the embedding of a
loop that can raise: the first failing element aborts the whole call. -/
def mapE {ε α β : Type} (f : α → Except ε β) : List α → Except ε (List β)
  | [] => Except.ok []
  | a :: as =>
    match f a with
    | Except.error e => Except.error e
    | Except.ok b =>
      match mapE f as with
      | Except.error e => Except.error e
      | Except.ok bs => Except.ok (b :: bs)

/-- One-hot block produced by `OneHotEncoder` with drop=first and
handle_unknown=ignore for one categorical column: one output column per
retained category (the first category is dropped), a 1 where the value
equals that category. A value that is not in the vocabulary matches no
retained category, so the whole block is zero. -/
def oneHotBlock (cats : List String) (v : String) : List ℚ :=
  (cats.drop 1).map (fun c => if v = c then 1 else 0)

/-- Numeric part of the transform of one record: for each fitted numeric
column, the StandardScaler rule `(value - mean_) / scale_`. -/
def numPart (st : FittedState) (r : RawRecord) : Except PreprocError (List ℚ) :=
  mapE (fun p =>
    match RawRecord.getNum r p.1 with
    | some x => Except.ok ((x - p.2.mean) / p.2.scale)
    | none => Except.error (PreprocError.missingColumn p.1)) st.numeric

/-- Categorical part of the transform of one record: the per-column one-hot
blocks, in fitted column order. -/
def catPart (st : FittedState) (r : RawRecord) :
    Except PreprocError (List (List ℚ)) :=
  mapE (fun p =>
    match RawRecord.getStr r p.1 with
    | some v => Except.ok (oneHotBlock p.2 v)
    | none => Except.error (PreprocError.missingColumn p.1)) st.categorical

/-- Transform of a single record at a fitted state: the scaled numeric
block followed by the concatenated one-hot blocks
(remainder=drop discards every other column). -/
def transformRow (st : FittedState) (r : RawRecord) :
    Except PreprocError (List ℚ) :=
  match numPart st r with
  | Except.error e => Except.error e
  | Except.ok ns =>
    match catPart st r with
    | Except.error e => Except.error e
    | Except.ok blocks => Except.ok (ns ++ blocks.flatten)

/-- Transform of a record set at a fitted state, row by row: the embedding
of `self.column_transformer.transform(X)` on a fitted transformer. -/
def transformAt (st : FittedState) (X : List RawRecord) :
    Except PreprocError (List (List ℚ)) :=
  mapE (transformRow st) X

/-- Output width fixed at fit time: one column per numeric feature plus,
for each categorical feature, its vocabulary size minus the dropped first
category. -/
def outputWidth (st : FittedState) : ℕ :=
  st.numeric.length + (st.categorical.map (fun p => p.2.length - 1)).sum

/-- ChurnPreprocessor from preprocessing.py: `column_transformer` is `None`
until `fit` has run. -/
structure ChurnPreprocessor where
  column_transformer : Option FittedState
deriving DecidableEq

/-- Embedding of `ChurnPreprocessor.transform` (preprocessing.py lines
56-69): raises when the preprocessor has not been fitted, otherwise
delegates to the fitted column transformer. -/
def ChurnPreprocessor.transform (p : ChurnPreprocessor) (X : List RawRecord) :
    Except PreprocError (List (List ℚ)) :=
  match p.column_transformer with
  | none => Except.error PreprocError.notFitted
  | some st => transformAt st X

/-- Record validity for a fitted state: every fitted numeric column is
present in the record as a number and every fitted categorical column is
present as a string (the precondition under which the sklearn transform does
not raise). -/
def validFor (st : FittedState) (r : RawRecord) : Bool :=
  st.numeric.all (fun p => (RawRecord.getNum r p.1).isSome) &&
  st.categorical.all (fun p => (RawRecord.getStr r p.1).isSome)

/-- ChurnModel from model.py: the wrapper stores the model type tag and the
wrapped sklearn classifier. The classifier is opaque to the repository (the
spec treats it as a black box): it is embedded as its expected input width
`n_features_in_` together with its predict and predict_proba behaviour
(`predict_proba` returns one row of class probabilities per input row, of
which column 1 is the churn probability). -/
structure ChurnModel where
  model_type : String
  nFeaturesIn : ℕ
  predictFn : List (List ℚ) → List ℕ
  predictProbaFn : List (List ℚ) → List (List ℚ)

/-- FileStore models the artifact files on disk as a map from file path to
the stored model value. joblib serialization (`joblib.dump(self, filepath)`
/ `joblib.load(filepath)` in model.py lines 85-94) is modelled as exact
value storage: pickling round-trips the object by the library contract. -/
abbrev FileStore := List (String × ChurnModel)

/-- Embedding of `ChurnModel.save`: dump the whole wrapper object to the
given path. -/
def ChurnModel.save (m : ChurnModel) (filepath : String) (fs : FileStore) :
    FileStore :=
  (filepath, m) :: fs

/-- Embedding of `ChurnModel.load`: read the object stored at the path,
`none` when no file is there. -/
def ChurnModel.load (filepath : String) (fs : FileStore) : Option ChurnModel :=
  (fs.find? (fun p => p.1 == filepath)).map (fun p => p.2)

/-- Artifact environment seen by `ChurnPredictor.__init__` (predict.py
lines 13-35): the model file and the preprocessor file, each `none` when
missing from disk and otherwise holding the deserialized object. -/
structure ArtifactEnv where
  modelFile : Option ChurnModel
  preprocessorFile : Option ChurnPreprocessor

/-- Load errors of `ChurnPredictor.__init__`: the two FileNotFoundError
branches. -/
inductive LoadError where
  | modelNotFound
  | preprocessorNotFound
deriving DecidableEq

/-- ChurnPredictor from predict.py: the loaded model and preprocessor. -/
structure ChurnPredictor where
  model : ChurnModel
  preprocessor : ChurnPreprocessor

/-- Embedding of `ChurnPredictor.__init__` (predict.py lines 13-35): raise
FileNotFoundError when the model file is missing, then when the
preprocessor file is missing, otherwise load both objects. No further
compatibility check is performed. -/
def loadPredictor (env : ArtifactEnv) : Except LoadError ChurnPredictor :=
  match env.modelFile with
  | none => Except.error LoadError.modelNotFound
  | some m =>
    match env.preprocessorFile with
    | none => Except.error LoadError.preprocessorNotFound
    | some p => Except.ok (ChurnPredictor.mk m p)

/-- Embedding of the `lifespan` startup handler (app.py lines 45-61): the
global `predictor` is set to the loaded instance, and to `None` when
construction raised (the Failed state). -/
def lifespanStartup (env : ArtifactEnv) : Option ChurnPredictor :=
  match loadPredictor env with
  | Except.ok p => some p
  | Except.error _ => none

/-- Embedding of `ChurnPredictor.predict` (predict.py lines 37-60):
transform the records, then pair each predicted label with column 1 of the
predicted probabilities. -/
def ChurnPredictor.predictDf (p : ChurnPredictor) (X : List RawRecord) :
    Except PreprocError (List (ℕ × ℚ)) :=
  match p.preprocessor.transform X with
  | Except.error e => Except.error e
  | Except.ok xt =>
    Except.ok ((p.model.predictFn xt).zip
      ((p.model.predictProbaFn xt).map (fun row => row.getD 1 0)))

/-- Embedding of `_get_risk_level` (app.py lines 296-303). -/
def getRiskLevel (probability : ℚ) : String :=
  if probability < 3/10 then "low"
  else if probability < 6/10 then "medium"
  else "high"

/-- Rounding to 4 decimals, the embedding of `round(float(prob), 4)` in the
response formatting. -/
def round4 (q : ℚ) : ℚ :=
  round (q * 10000) / 10000

/-- One entry of the /predict response body (app.py lines 240-247). -/
structure PredictionItem where
  customer_index : ℕ
  will_churn : Bool
  churn_probability : ℚ
  risk_level : String
deriving DecidableEq

/-- Body of a successful /predict response (app.py lines 251-255). -/
structure PredictionResponse where
  predictions : List PredictionItem
  model_version : String
deriving DecidableEq

/-- ApiError is an HTTPException: status code and detail message. -/
abbrev ApiError := ℕ × String

/-- Embedding of the POST /predict handler (app.py lines 218-262): 503 when
the global predictor is `None`, otherwise run the predictor and format the
response, mapping any internal exception to a 500. -/
def predictEndpoint (predictor : Option ChurnPredictor)
    (customers : List RawRecord) : Except ApiError PredictionResponse :=
  match predictor with
  | none => Except.error (503, "Model not loaded. Please check service health.")
  | some p =>
    match p.predictDf customers with
    | Except.error _ => Except.error (500, "Prediction failed")
    | Except.ok results =>
      Except.ok (PredictionResponse.mk
        (results.enum.map (fun e =>
          PredictionItem.mk e.1 (e.2.1 ≠ 0) (round4 e.2.2) (getRiskLevel e.2.2)))
        "1.0.0")

/-- Body of a successful /predict/single response (app.py lines 277-285). -/
structure SingleResponse where
  will_churn : Bool
  churn_probability : ℚ
  risk_level : String
deriving DecidableEq

/-- Embedding of the POST /predict/single handler (app.py lines 265-292):
503 when the global predictor is `None`, otherwise predict on the
one-record batch, mapping internal exceptions to a 500. -/
def predictSingleEndpoint (predictor : Option ChurnPredictor)
    (customer : RawRecord) : Except ApiError SingleResponse :=
  match predictor with
  | none => Except.error (503, "Model not loaded")
  | some p =>
    match p.predictDf [customer] with
    | Except.error _ => Except.error (500, "Prediction failed")
    | Except.ok results =>
      match results with
      | [] => Except.error (500, "Prediction failed")
      | r :: _ =>
        Except.ok (SingleResponse.mk (r.1 ≠ 0) (round4 r.2) (getRiskLevel r.2))

/-- Embedding of the GET /ready handler (app.py lines 203-214): 503 when
the global predictor is `None`, otherwise a 200 with status "ready". -/
def readinessCheck (predictor : Option ChurnPredictor) :
    Except ApiError String :=
  match predictor with
  | none => Except.error (503, "Model not loaded")
  | some _ => Except.ok "ready"

/-- DriftSummary models the drift-summary dictionary consumed by
`check_drift_alert` (drift_monitor.py): each key that the function reads is
an `Option`, `none` standing for an absent dictionary key. -/
structure DriftSummary where
  share_of_drifted_columns : Option ℚ
  dataset_drift_detected : Option Bool
  number_of_drifted_columns : Option ℕ
  drifted_features : List String
deriving DecidableEq

/-- Embedding of `DriftMonitor.check_drift_alert` (drift_monitor.py lines
211-233): `dict.get` with defaults 0 and False, then
`share_drifted > threshold or dataset_drift`. The logging branch does not
affect the returned value. -/
def check_drift_alert (drift_summary : DriftSummary) (threshold : ℚ) : Bool :=
  (drift_summary.share_of_drifted_columns.getD 0 > threshold) ||
  drift_summary.dataset_drift_detected.getD false

/-! Helper lemmas about `mapE`, the embedding of an exception-raising loop. -/

theorem mapE_ok_length {ε α β : Type} {f : α → Except ε β} :
    ∀ {l : List α} {bs : List β}, mapE f l = Except.ok bs → bs.length = l.length := by
  intro l
  induction l with
  | nil =>
    intro bs h
    simp only [mapE] at h
    cases h
    rfl
  | cons a as ih =>
    intro bs h
    simp only [mapE] at h
    cases hfa : f a with
    | error e => rw [hfa] at h; cases h
    | ok b =>
      rw [hfa] at h
      cases hrec : mapE f as with
      | error e => rw [hrec] at h; cases h
      | ok bs' =>
        rw [hrec] at h
        cases h
        simp [ih hrec]

theorem mapE_ok_get {ε α β : Type} {f : α → Except ε β} :
    ∀ {l : List α} {bs : List β} {i : ℕ} {a : α},
      mapE f l = Except.ok bs → l[i]? = some a →
      ∃ b, f a = Except.ok b ∧ bs[i]? = some b := by
  intro l
  induction l with
  | nil =>
    intro bs i a _ ha
    simp at ha
  | cons x xs ih =>
    intro bs i a h ha
    simp only [mapE] at h
    cases hfx : f x with
    | error e => rw [hfx] at h; cases h
    | ok b =>
      rw [hfx] at h
      cases hrec : mapE f xs with
      | error e => rw [hrec] at h; cases h
      | ok bs' =>
        rw [hrec] at h
        cases h
        cases i with
        | zero =>
          simp at ha
          subst ha
          exact ⟨b, hfx, by simp⟩
        | succ j =>
          simp at ha
          obtain ⟨c, hc, hcb⟩ := ih hrec ha
          exact ⟨c, hc, by simpa using hcb⟩

theorem mapE_ok_mem {ε α β : Type} {f : α → Except ε β} :
    ∀ {l : List α} {bs : List β} {b : β},
      mapE f l = Except.ok bs → b ∈ bs → ∃ a ∈ l, f a = Except.ok b := by
  intro l
  induction l with
  | nil =>
    intro bs b h hb
    simp only [mapE] at h
    cases h
    simp at hb
  | cons x xs ih =>
    intro bs b h hb
    simp only [mapE] at h
    cases hfx : f x with
    | error e => rw [hfx] at h; cases h
    | ok c =>
      rw [hfx] at h
      cases hrec : mapE f xs with
      | error e => rw [hrec] at h; cases h
      | ok bs' =>
        rw [hrec] at h
        cases h
        rcases List.mem_cons.mp hb with hb | hb
        · exact ⟨x, List.mem_cons_self x xs, by rw [hfx, hb]⟩
        · obtain ⟨a, ha, hab⟩ := ih hrec hb
          exact ⟨a, List.mem_cons_of_mem x ha, hab⟩

theorem mapE_ok_of_forall {ε α β : Type} {f : α → Except ε β} :
    ∀ {l : List α}, (∀ a ∈ l, ∃ b, f a = Except.ok b) →
      ∃ bs, mapE f l = Except.ok bs := by
  intro l
  induction l with
  | nil => intro _; exact ⟨[], rfl⟩
  | cons x xs ih =>
    intro hall
    obtain ⟨b, hb⟩ := hall x (List.mem_cons_self x xs)
    obtain ⟨bs, hbs⟩ := ih (fun a ha => hall a (List.mem_cons_of_mem x ha))
    exact ⟨b :: bs, by simp only [mapE]; rw [hb, hbs]⟩

theorem mapE_ok_map {ε α β γ : Type} {f : α → Except ε β} {g : β → γ}
    {h : α → γ} (hf : ∀ a b, f a = Except.ok b → g b = h a) :
    ∀ {l : List α} {bs : List β},
      mapE f l = Except.ok bs → bs.map g = l.map h := by
  intro l
  induction l with
  | nil =>
    intro bs hok
    simp only [mapE] at hok
    cases hok
    rfl
  | cons x xs ih =>
    intro bs hok
    simp only [mapE] at hok
    cases hfx : f x with
    | error e => rw [hfx] at hok; cases hok
    | ok b =>
      rw [hfx] at hok
      cases hrec : mapE f xs with
      | error e => rw [hrec] at hok; cases hok
      | ok bs' =>
        rw [hrec] at hok
        cases hok
        simp [hf x b hfx, ih hrec]

/-! Lemmas about the embedded preprocessor. -/

theorem oneHotBlock_length (cats : List String) (v : String) :
    (oneHotBlock cats v).length = cats.length - 1 := by
  simp [oneHotBlock]

theorem oneHotBlock_unknown {cats : List String} {v : String}
    (hout : v ∉ cats) :
    oneHotBlock cats v = List.replicate (cats.length - 1) 0 := by
  rw [← oneHotBlock_length cats v]
  apply List.eq_replicate_of_mem
  intro b hb
  simp only [oneHotBlock, List.mem_map] at hb
  obtain ⟨c, hc, hcb⟩ := hb
  have hcc : c ∈ cats := by
    rcases cats with _ | ⟨c0, rest⟩
    · simp at hc
    · simp only [List.drop_one, List.tail_cons] at hc
      exact List.mem_cons_of_mem c0 hc
  have hne : v ≠ c := fun he => hout (he ▸ hcc)
  rw [if_neg hne] at hcb
  exact hcb.symm

theorem numPart_ok_of_valid {st : FittedState} {r : RawRecord}
    (h : validFor st r = true) : ∃ ns, numPart st r = Except.ok ns := by
  apply mapE_ok_of_forall
  intro p hp
  have hall := (Bool.and_eq_true _ _ |>.mp h).1
  have hsome := List.all_eq_true.mp hall p hp
  cases hv : RawRecord.getNum r p.1 with
  | none => rw [hv] at hsome; simp at hsome
  | some x => exact ⟨(x - p.2.mean) / p.2.scale, rfl⟩

theorem catPart_ok_of_valid {st : FittedState} {r : RawRecord}
    (h : validFor st r = true) : ∃ bs, catPart st r = Except.ok bs := by
  apply mapE_ok_of_forall
  intro p hp
  have hall := (Bool.and_eq_true _ _ |>.mp h).2
  have hsome := List.all_eq_true.mp hall p hp
  cases hv : RawRecord.getStr r p.1 with
  | none => rw [hv] at hsome; simp at hsome
  | some v => exact ⟨oneHotBlock p.2 v, rfl⟩

theorem numPart_length {st : FittedState} {r : RawRecord} {ns : List ℚ}
    (h : numPart st r = Except.ok ns) : ns.length = st.numeric.length :=
  mapE_ok_length h

theorem catPart_lengths {st : FittedState} {r : RawRecord}
    {bs : List (List ℚ)} (h : catPart st r = Except.ok bs) :
    bs.map List.length = st.categorical.map (fun p => p.2.length - 1) := by
  apply mapE_ok_map _ h
  intro p b hb
  cases hv : RawRecord.getStr r p.1 with
  | none => rw [hv] at hb; cases hb
  | some v =>
    rw [hv] at hb
    cases hb
    exact oneHotBlock_length p.2 v

theorem transformRow_length {st : FittedState} {r : RawRecord} {v : List ℚ}
    (h : transformRow st r = Except.ok v) : v.length = outputWidth st := by
  simp only [transformRow] at h
  cases hn : numPart st r with
  | error e => rw [hn] at h; cases h
  | ok ns =>
    rw [hn] at h
    cases hc : catPart st r with
    | error e => rw [hc] at h; cases h
    | ok bs =>
      rw [hc] at h
      cases h
      have h1 : ns.length = st.numeric.length := numPart_length hn
      have h2 : bs.flatten.length =
          ((st.categorical.map (fun p => p.2.length - 1)).sum) := by
        rw [List.length_flatten, catPart_lengths hc]
      simp [outputWidth, h1, h2]

theorem transformRow_ok_of_valid {st : FittedState} {r : RawRecord}
    (h : validFor st r = true) :
    ∃ v, transformRow st r = Except.ok v := by
  obtain ⟨ns, hns⟩ := numPart_ok_of_valid h
  obtain ⟨bs, hbs⟩ := catPart_ok_of_valid h
  exact ⟨ns ++ bs.flatten, by simp only [transformRow]; rw [hns, hbs]⟩

/-! Concrete sample data used by the witness theorems, mirroring the
end-to-end scenario of the spec: a numeric tenure column and a categorical
Contract column with the three contract types seen at fit. -/

/-- Sample fitted state: tenure scaled with mean 12 and scale 1, Contract
one-hot encoded over its three fitted categories. -/
def sampleState : FittedState :=
  FittedState.mk [("tenure", FittedScaler.mk 12 1)]
    [("Contract", ["Month-to-month", "One year", "Two year"])]

/-- Sample record whose Contract value was never seen at fit. -/
def sampleUnknownRecord : RawRecord :=
  [("tenure", Value.num 5), ("Contract", Value.str "Three year")]

/-- Sample fitted preprocessor wrapping the sample state. -/
def samplePreprocessor : ChurnPreprocessor :=
  ChurnPreprocessor.mk (some sampleState)

/-- C2: for every fitted preprocessor state and every valid record holding,
in a categorical column, a value not observed during fit, the transform
succeeds (it does not raise) and the one-hot block produced for that column
is the all-zero vector of the fitted block width, so no new output column
is created and the total output width is unchanged. -/
theorem unknown_category_all_zero_block (st : FittedState) (r : RawRecord)
    (i : ℕ) (c : String) (cats : List String) (v : String)
    (hvalid : validFor st r = true)
    (hcol : st.categorical[i]? = some (c, cats))
    (hval : RawRecord.getStr r c = some v)
    (hunk : v ∉ cats) :
    ∃ out blocks, transformRow st r = Except.ok out ∧
      catPart st r = Except.ok blocks ∧
      blocks[i]? = some (List.replicate (cats.length - 1) 0) ∧
      out.length = outputWidth st := by
  obtain ⟨out, hout⟩ := transformRow_ok_of_valid hvalid
  obtain ⟨bs, hbs⟩ := catPart_ok_of_valid hvalid
  obtain ⟨b, hfb, hbi⟩ := mapE_ok_get hbs hcol
  rw [hval] at hfb
  cases hfb
  refine ⟨out, bs, hout, hbs, ?_, transformRow_length hout⟩
  rw [hbi, oneHotBlock_unknown hunk]

/-- Witness for C2 at the sample data: transforming a record with the
unseen Contract value Three year succeeds and yields the all-zero block of
width two for the Contract column group. -/
theorem unknown_category_all_zero_block_witness :
    ∃ out blocks,
      transformRow sampleState sampleUnknownRecord = Except.ok out ∧
      catPart sampleState sampleUnknownRecord = Except.ok blocks ∧
      blocks[0]? = some (List.replicate 2 0) ∧
      out.length = outputWidth sampleState :=
  unknown_category_all_zero_block sampleState sampleUnknownRecord 0
    "Contract" ["Month-to-month", "One year", "Two year"] "Three year"
    (by decide) (by decide) (by decide) (by decide)

/-- C3: for every fitted preprocessor state and every record set the
transform accepts, every returned vector has the same length, the output
width fixed at fit time; and whenever the paired model expects exactly that
width, every returned vector has the model expected input width. -/
theorem transform_width_invariant (st : FittedState) (X : List RawRecord)
    (out : List (List ℚ)) (h : transformAt st X = Except.ok out) :
    (∀ row ∈ out, row.length = outputWidth st) ∧
    ∀ m : ChurnModel, m.nFeaturesIn = outputWidth st →
      ∀ row ∈ out, row.length = m.nFeaturesIn := by
  have hmain : ∀ row ∈ out, row.length = outputWidth st := by
    intro row hrow
    obtain ⟨r, _, hr⟩ := mapE_ok_mem h hrow
    exact transformRow_length hr
  exact ⟨hmain, fun m hm row hrow => by rw [hm]; exact hmain row hrow⟩

/-- Witness for C3 at the sample data: the single transformed row has the
fitted output width of three. -/
theorem transform_width_invariant_witness :
    ([(-7 : ℚ), 0, 0] : List ℚ).length = outputWidth sampleState :=
  (transform_width_invariant sampleState [sampleUnknownRecord]
    [[(-7 : ℚ), 0, 0]] (by
      simp only [transformAt, mapE, transformRow, numPart, catPart,
        oneHotBlock, sampleState, sampleUnknownRecord, RawRecord.getNum,
        RawRecord.getStr, List.find?, List.map, List.drop,
        show (("tenure" : String) == "Contract") = false from rfl,
        show (("tenure" : String) == "tenure") = true from rfl,
        show (("Contract" : String) == "Contract") = true from rfl]
      norm_num
      exact ⟨by decide, by decide⟩)).1
    [(-7 : ℚ), 0, 0] (by simp)

/-- C6: transform is deterministic: two calls on equal preprocessors and
equal record sets return equal (bit-identical, in the exact rational
semantics) outputs; the embedded transform is a pure function of the fitted
state and the input, with no other state read. -/
theorem transform_deterministic (p q : ChurnPreprocessor)
    (X Y : List RawRecord) (hpq : p = q) (hXY : X = Y) :
    ChurnPreprocessor.transform p X = ChurnPreprocessor.transform q Y := by
  rw [hpq, hXY]

/-- Witness for C6 at the sample data: two identical calls agree. -/
theorem transform_deterministic_witness :
    ChurnPreprocessor.transform samplePreprocessor [sampleUnknownRecord] =
      ChurnPreprocessor.transform samplePreprocessor [sampleUnknownRecord] :=
  transform_deterministic samplePreprocessor samplePreprocessor
    [sampleUnknownRecord] [sampleUnknownRecord] rfl rfl

/-- C7: for every input record set, transform on a preprocessor that has
not been fitted (its column transformer is still None) fails with the
NotFitted error, so it never returns a transformed matrix. -/
theorem transform_before_fit_not_fitted (X : List RawRecord) :
    ChurnPreprocessor.transform (ChurnPreprocessor.mk none) X =
      Except.error PreprocError.notFitted :=
  rfl

/-- C4: risk-level derivation is the fixed threshold function of the churn
probability: below 0.30 low, from 0.30 below 0.60 medium, from 0.60 high;
in particular 0.29999 maps to low, 0.3 to medium, 0.59999 to medium and 0.6
to high. -/
theorem risk_level_thresholds (p : ℚ) :
    (p < 3/10 → getRiskLevel p = "low") ∧
    (3/10 ≤ p → p < 6/10 → getRiskLevel p = "medium") ∧
    (6/10 ≤ p → getRiskLevel p = "high") ∧
    getRiskLevel (29999/100000) = "low" ∧
    getRiskLevel (3/10) = "medium" ∧
    getRiskLevel (59999/100000) = "medium" ∧
    getRiskLevel (6/10) = "high" := by
  refine ⟨?_, ?_, ?_, ?_, ?_, ?_, ?_⟩
  · intro h
    simp [getRiskLevel, h]
  · intro h1 h2
    rw [getRiskLevel, if_neg (not_lt.mpr h1), if_pos h2]
  · intro h
    rw [getRiskLevel, if_neg (by linarith), if_neg (not_lt.mpr h)]
  · norm_num [getRiskLevel]
  · norm_num [getRiskLevel]
  · norm_num [getRiskLevel]
  · norm_num [getRiskLevel]

/-- Witness for C4: one probability from each band, pushed through the
three conditional branches of the theorem. -/
theorem risk_level_thresholds_witness :
    getRiskLevel (1/5) = "low" ∧ getRiskLevel (1/2) = "medium" ∧
      getRiskLevel (7/10) = "high" :=
  ⟨(risk_level_thresholds (1/5)).1 (by norm_num),
   (risk_level_thresholds (1/2)).2.1 (by norm_num) (by norm_num),
   (risk_level_thresholds (7/10)).2.2.1 (by norm_num)⟩

/-- C5: check_drift_alert is a pure function of the report and the
threshold; on a report carrying both fields it returns true exactly when
the share of drifted columns exceeds the threshold or the dataset-level
drift flag is set, and the two synthetic reports of the spec evaluate to
true (share 0.4, threshold 0.3) and false (share 0.1, flag false,
threshold 0.3). -/
theorem check_drift_alert_iff (share : ℚ) (flag : Bool) (n : Option ℕ)
    (feats : List String) (threshold : ℚ) :
    (check_drift_alert
        (DriftSummary.mk (some share) (some flag) n feats) threshold = true ↔
      share > threshold ∨ flag = true) ∧
    check_drift_alert
      (DriftSummary.mk (some (2/5)) (some false) none []) (3/10) = true ∧
    check_drift_alert
      (DriftSummary.mk (some (1/10)) (some false) none []) (3/10) = false := by
  refine ⟨?_, ?_, ?_⟩
  · simp [check_drift_alert]
  · norm_num [check_drift_alert]
  · norm_num [check_drift_alert]

/-- C10: check_drift_alert is total over reports with absent keys: an
absent share key behaves as share 0, an absent dataset-drift key behaves as
flag False, and when both keys are absent the alert is false for every
nonnegative threshold. -/
theorem check_drift_alert_defaults (s : Option ℚ) (d : Option Bool)
    (n : Option ℕ) (feats : List String) (t : ℚ) :
    (check_drift_alert (DriftSummary.mk none d n feats) t =
      check_drift_alert (DriftSummary.mk (some 0) d n feats) t) ∧
    (check_drift_alert (DriftSummary.mk s none n feats) t =
      check_drift_alert (DriftSummary.mk s (some false) n feats) t) ∧
    (0 ≤ t → check_drift_alert (DriftSummary.mk none none n feats) t = false) := by
  refine ⟨rfl, rfl, ?_⟩
  intro ht
  simp only [check_drift_alert, Option.getD_none, Bool.or_false,
    decide_eq_false_iff_not, not_lt, gt_iff_lt]
  exact ht

/-- Witness for C10: a report with both keys absent and the default
threshold 0.3 triggers no alert. -/
theorem check_drift_alert_defaults_witness :
    check_drift_alert (DriftSummary.mk none none none []) (3/10) = false :=
  (check_drift_alert_defaults none none none [] (3/10)).2.2 (by norm_num)

/-- Sample classifier expecting five input features; its width of five
differs from the three output columns of sampleState. -/
def sampleWideModel : ChurnModel :=
  ChurnModel.mk "random_forest" 5
    (fun X => List.replicate X.length 0)
    (fun X => X.map (fun _ => [1/2, 1/2]))

/-- Artifact environment in which both files exist but the preprocessor
output width (3) differs from the model expected input width (5). -/
def mismatchedEnv : ArtifactEnv :=
  ArtifactEnv.mk (some sampleWideModel) (some samplePreprocessor)

/-- Counterexample to C1 as stated: for this artifact pair the preprocessor
output width differs from the model expected input width, yet the load in
ChurnPredictor.__init__ succeeds and the startup handler publishes a Ready
predictor instead of failing. -/
theorem predictor_load_mismatch_counterexample :
    (lifespanStartup mismatchedEnv).isSome = true ∧
      outputWidth sampleState ≠ sampleWideModel.nFeaturesIn :=
  ⟨rfl, by decide⟩

/-- C1 amended: predictor load fails, leaving the API in the Failed state
(global predictor None), exactly when an artifact file is missing; no
dimensionality check is performed at load time, so an artifact pair whose
widths disagree still loads into a Ready predictor. -/
theorem predictor_load_failure_iff_missing (env : ArtifactEnv) :
    ((lifespanStartup env).isSome = true ↔
      env.modelFile.isSome = true ∧ env.preprocessorFile.isSome = true) ∧
    (∀ m p, env.modelFile = some m → env.preprocessorFile = some p →
      loadPredictor env = Except.ok (ChurnPredictor.mk m p)) ∧
    (env.modelFile = none →
      loadPredictor env = Except.error LoadError.modelNotFound) ∧
    (∀ m, env.modelFile = some m → env.preprocessorFile = none →
      loadPredictor env = Except.error LoadError.preprocessorNotFound) := by
  obtain ⟨mf, pf⟩ := env
  refine ⟨?_, ?_, ?_, ?_⟩
  · cases mf <;> cases pf <;>
      simp [lifespanStartup, loadPredictor]
  · intro m p hm hp
    cases hm
    cases hp
    rfl
  · intro hm
    cases hm
    rfl
  · intro m hm hp
    cases hm
    cases hp
    rfl

/-- Witness for the amended C1: in the mismatched environment both files
exist, so the load succeeds and returns exactly the deserialized pair. -/
theorem predictor_load_failure_iff_missing_witness :
    loadPredictor mismatchedEnv =
      Except.ok (ChurnPredictor.mk sampleWideModel samplePreprocessor) :=
  (predictor_load_failure_iff_missing mismatchedEnv).2.1
    sampleWideModel samplePreprocessor rfl rfl

/-- C8: readiness gating: while the global predictor is None (not loaded or
load failed), the batch and single prediction handlers and the readiness
handler all return the 503 ServiceUnavailable error without evaluating any
model, and the readiness handler succeeds exactly when the predictor is
present. -/
theorem readiness_gating (pred : Option ChurnPredictor)
    (req : List RawRecord) (c : RawRecord) :
    (pred = none →
      predictEndpoint pred req =
        Except.error (503, "Model not loaded. Please check service health.") ∧
      predictSingleEndpoint pred c = Except.error (503, "Model not loaded") ∧
      readinessCheck pred = Except.error (503, "Model not loaded")) ∧
    ((readinessCheck pred).toOption.isSome = true ↔ pred.isSome = true) := by
  constructor
  · intro h
    cases h
    exact ⟨rfl, rfl, rfl⟩
  · cases pred <;> simp [readinessCheck, Except.toOption]

/-- Witness for C8: with no predictor loaded, each endpoint answers 503. -/
theorem readiness_gating_witness :
    predictEndpoint none [] =
      Except.error (503, "Model not loaded. Please check service health.") ∧
    predictSingleEndpoint none [] = Except.error (503, "Model not loaded") ∧
    readinessCheck none = Except.error (503, "Model not loaded") :=
  (readiness_gating none [] []).1 rfl

/-- Sample trained model used by the persistence witness. -/
def sampleModel : ChurnModel :=
  ChurnModel.mk "random_forest" 3
    (fun X => List.replicate X.length 1)
    (fun X => X.map (fun _ => [1/4, 3/4]))

/-- C9: persist then restore round-trips exactly: loading the path just
saved returns the very model that was saved, and therefore any restored
model produces predictions and probabilities identical to the original on
every input. -/
theorem model_persist_restore_roundtrip (m : ChurnModel) (path : String)
    (fs : FileStore) (X : List (List ℚ)) :
    ChurnModel.load path (ChurnModel.save m path fs) = some m ∧
    ∀ m2, ChurnModel.load path (ChurnModel.save m path fs) = some m2 →
      m2.predictFn X = m.predictFn X ∧
      m2.predictProbaFn X = m.predictProbaFn X := by
  have hload : ChurnModel.load path (ChurnModel.save m path fs) = some m := by
    simp [ChurnModel.load, ChurnModel.save, List.find?]
  refine ⟨hload, ?_⟩
  intro m2 hm2
  rw [hload] at hm2
  cases hm2
  exact ⟨rfl, rfl⟩

/-- Witness for C9: saving the sample model to the artifact path of an
empty store and loading it back returns it, and the restored model predicts
identically on a concrete batch. -/
theorem model_persist_restore_roundtrip_witness :
    ChurnModel.load "models/churn_model.pkl"
        (ChurnModel.save sampleModel "models/churn_model.pkl" []) =
      some sampleModel ∧
    sampleModel.predictFn [[1, 2, 3]] = sampleModel.predictFn [[1, 2, 3]] :=
  ⟨(model_persist_restore_roundtrip sampleModel "models/churn_model.pkl"
      [] [[1, 2, 3]]).1,
   ((model_persist_restore_roundtrip sampleModel "models/churn_model.pkl"
      [] [[1, 2, 3]]).2 sampleModel
     (model_persist_restore_roundtrip sampleModel "models/churn_model.pkl"
      [] [[1, 2, 3]]).1).1⟩

end Spec2Proof
